import Mathlib

/-!
Shallow embedding of `Datto_backup_check.py` (and the thresholds it shares with
`config.py`).

Modelling conventions:
* Timestamps and elapsed times are integer epoch seconds (`Int`); the script's
  `datetime` subtractions and `total_seconds()` become plain integer subtraction.
* Python's float expression `float("{0:.2f}".format(used / total)) * 100`
  (source line 175) is modelled over the integers: formatting the ratio to two
  decimals and multiplying by 100 yields the nearest integer to `100 * used / total`,
  with ties rounded down.  The only decimal tie that can affect the `> 95`
  comparison is a ratio of exactly 0.955 = 191/200; that value is not a binary
  double, its nearest double lies below it (0.95499999999999996...), and CPython
  formats that double to "0.95", producing no finding.  Rounding ties down
  reproduces this: the finding fires exactly when the ratio is strictly above 95.5%.
* JSON `null` becomes `none`; Python truthiness on an optional integer field
  (`if not agent['latestOffsite']`, `and agent['lastScreenshotAttempt']`) is
  a test for `none` *or* `some 0`.
* The uncaught `ZeroDivisionError` of `storage_used / total_space` when
  `total_space == 0` is modelled by the device evaluation returning `none`.
* Each error line the script builds is represented by a constructor of the
  inductive type `Finding`; `render` produces the corresponding text.
-/

namespace DattoCheck

/-- `CHECKIN_LIMIT = 60 * 20` (source line 23). -/
def CHECKIN_LIMIT : Int := 60 * 20

/-- `STORAGE_PCT_THRESHOLD = 95` (source line 24). -/
def STORAGE_PCT_THRESHOLD : Int := 95

/-- `LAST_BACKUP_THRESHOLD = 60 * 60 * 12` (source line 25). -/
def LAST_BACKUP_THRESHOLD : Int := 60 * 60 * 12

/-- `LAST_OFFSITE_THRESHOLD = 60 * 60 * 72` (source line 26). -/
def LAST_OFFSITE_THRESHOLD : Int := 60 * 60 * 72

/-- `LAST_SCREENSHOT_THRESHOLD = 60 * 60 * 48` (source line 27). -/
def LAST_SCREENSHOT_THRESHOLD : Int := 60 * 60 * 48

/-! ## `display_time` (source lines 88-109) -/

/-- The `intervals` tuple of `display_time` (source lines 91-97). -/
def intervals : List (String × Nat) :=
  [("weeks", 604800), ("days", 86400), ("hours", 3600), ("minutes", 60), ("seconds", 1)]

/-- Python's `name.rstrip('s')`: drop every trailing `'s'` character. -/
def rstripS (s : String) : String :=
  String.mk ((s.data.reverse.dropWhile (fun c => c == 's')).reverse)

/-- The `for name, count in intervals` loop of `display_time` (source lines 102-108):
divide, skip zero values, singularize a value of exactly 1, collect the rendered parts. -/
def dtLoop : Nat → List (String × Nat) → List String
  | _, [] => []
  | secs, (name, count) :: rest =>
    let value := secs / count
    if value = 0 then dtLoop secs rest
    else
      (toString value ++ " " ++ (if value = 1 then rstripS name else name))
        :: dtLoop (secs - value * count) rest

/-- `display_time(seconds, granularity)` (source lines 88-109):
`', '.join(result[:granularity])`. -/
def display_time (seconds granularity : Nat) : String :=
  String.intercalate ", " ((dtLoop seconds intervals).take granularity)

/-! ## Findings -/

/-- One error line produced by the main loop's checks, by provenance.
`render` recovers the literal message text. -/
inductive Finding where
  | activeTickets (count : Int)
  | lateCheckin (elapsed : Int)
  | storage (pct : Int)
  | backupFailed (name : String) (elapsed : Int) (errorMessage : String)
  | noBackups (name : String)
  | noOffsite (name : String)
  | lateOffsite (name : String) (elapsed : Int)
  | lateScreenshot (name : String) (elapsed : Int)
  | screenshotFailed (name : String)
  deriving DecidableEq

def Finding.isLateCheckin : Finding → Bool
  | .lateCheckin _ => true
  | _ => false

def Finding.isStorage : Finding → Bool
  | .storage _ => true
  | _ => false

def Finding.isLateScreenshot : Finding → Bool
  | .lateScreenshot _ _ => true
  | _ => false

/-- The literal message text of each finding, from the `format` strings of the source
(lines 157-163, 166, 178-181, 204-215, 219-228, 234-242).  The numeric storage
percentage is rendered as an integer; CPython would print the float representation. -/
def render : Finding → String
  | .activeTickets c =>
      " [-]   Appliance has " ++ toString c ++ " active "
        ++ (if c < 2 then "ticket" else "tickets")
  | .lateCheckin e =>
      " [!] CRITICAL -  Last checkin was " ++ display_time e.toNat 2 ++ " ago!"
  | .storage p =>
      " [!]   Local storage exceeds 95%!  Current Usage: " ++ toString p ++ "%"
  | .backupFailed n e em =>
      " [!]   " ++ n ++ ": Last scheduled backup failed; last backup was "
        ++ display_time e.toNat 2 ++ " ago\n       -->  \"" ++ em ++ "\""
  | .noBackups n =>
      " [-]   " ++ n ++ ": does not seem to have any backups!"
  | .noOffsite n =>
      " [-]   " ++ n ++ ": no off-site backup points"
  | .lateOffsite n e =>
      " [!]   " ++ n ++ ": Last off-site was " ++ display_time e.toNat 2 ++ " ago"
  | .lateScreenshot n e =>
      " [!]   " ++ n ++ ": Last screenshot attempt was " ++ display_time e.toNat 2 ++ " ago!"
  | .screenshotFailed n =>
      " [-]   " ++ n ++ ": Last screenshot attempt failed!"

/-! ## Data model -/

/-- A device record, the fields of the `items` entries that the script reads.
`lastSeen` is the epoch-second value parsed from `lastSeenDate` (source lines 150-151). -/
structure Device where
  name : String
  serialNumber : String
  hidden : Bool
  lastSeen : Int
  activeTickets : Int
  localStorageAvailable : Int
  localStorageUsed : Int
  deriving DecidableEq

/-- One entry of an asset's `backups` list: `backup.status` and `backup.errorMessage`. -/
structure Backup where
  status : String
  errorMessage : String
  deriving DecidableEq

/-- An asset (agent) record, the fields the script reads (source lines 190-242).
`latestOffsite` and `lastScreenshotAttempt` are nullable epoch timestamps;
`lastScreenshotAttemptStatus` is a nullable boolean. -/
structure Agent where
  name : String
  isArchived : Bool
  isPaused : Bool
  lastSnapshot : Int
  backups : List Backup
  latestOffsite : Option Int
  type : String
  lastScreenshotAttempt : Option Int
  lastScreenshotAttemptStatus : Option Bool
  deriving DecidableEq

/-! ## Storage percentage (source lines 171-175) -/

/-- Round-to-nearest (half up) of the integer division `a / b` for `b > 0`:
`⌊(a + b/2) / b⌋ = (2*a + b) / (2*b)` with floor division.  Used only for the
claim-side reading `specStoragePct` ("rounded to 2 decimals"); its tie direction
is immaterial to the counterexample, which sits at 95.30%. -/
def roundHalfDiv (a b : Int) : Int := (2 * a + b) / (2 * b)

/-- Round-to-nearest (half down) of the integer division `a / b` for `b > 0`:
`⌈(a - b/2) / b⌉ = -((b - 2*a) / (2*b))` with floor division. -/
def roundHalfDownDiv (a b : Int) : Int := -((b - 2 * a) / (2 * b))

/-- `available_pct = float("{0:.2f}".format(storage_used / total_space)) * 100`
(source line 175): rounding the ratio to two decimals and then multiplying by 100
equals rounding `100 * used / total` to the nearest integer.  Ties round down: at
the only tie the `> 95` comparison can observe — a ratio of exactly
0.955 = 191/200 — the nearest IEEE double lies below the tie and CPython formats
it to "0.95", so the program does not fire the finding there. -/
def availablePct (used total : Int) : Int := roundHalfDownDiv (100 * used) total

/-! ## Asset checks (source lines 190-242) -/

/-- The backup-recency check (source lines 196-215).  The `try`/`except IndexError`
around `agent['backups'][0]` becomes a match on the `backups` list: an empty list
yields the "does not seem to have any backups" finding instead of an exception. -/
def backupCheck (now : Int) (agent : Agent) : List Finding :=
  let timeDiff := now - agent.lastSnapshot
  if timeDiff > LAST_BACKUP_THRESHOLD then
    match agent.backups with
    | [] => [.noBackups agent.name]
    | b :: _ =>
      if b.status ≠ "success" then [.backupFailed agent.name timeDiff b.errorMessage]
      else []
  else []

/-- The off-site check (source lines 217-228).  `if not agent['latestOffsite']` is
Python truthiness: both `null` and the integer `0` take the "no off-site backup
points" branch; only a non-zero timestamp is compared against the threshold. -/
def offsiteCheck (now : Int) (agent : Agent) : List Finding :=
  match agent.latestOffsite with
  | none => [.noOffsite agent.name]
  | some t =>
    if t = 0 then [.noOffsite agent.name]
    else if now - t > LAST_OFFSITE_THRESHOLD then [.lateOffsite agent.name (now - t)]
    else []

/-- The screenshot-recency check (source lines 229-237):
`if agent['type'] == 'agent' and agent['lastScreenshotAttempt']` — the timestamp is
tested for truthiness, so `null` and `0` both skip the check. -/
def screenshotTimeCheck (now : Int) (agent : Agent) : List Finding :=
  match agent.lastScreenshotAttempt with
  | none => []
  | some t =>
    if agent.type = "agent" ∧ t ≠ 0 ∧ now - t > LAST_SCREENSHOT_THRESHOLD then
      [.lateScreenshot agent.name (now - t)]
    else []

/-- The screenshot-status check (source lines 239-242):
`agent['lastScreenshotAttemptStatus'] == False` is an equality test against `False`. -/
def screenshotStatusCheck (agent : Agent) : List Finding :=
  if agent.type = "agent" ∧ agent.lastScreenshotAttemptStatus = some false then
    [.screenshotFailed agent.name]
  else []

/-- All four checks of one (non-archived, non-paused) asset, in source order. -/
def assetChecks (now : Int) (agent : Agent) : List Finding :=
  backupCheck now agent ++ offsiteCheck now agent
    ++ screenshotTimeCheck now agent ++ screenshotStatusCheck agent

/-- The per-asset entry of `results_data[...]['assets']`. -/
structure AssetReport where
  name : String
  findings : List Finding
  deriving DecidableEq

/-- The `for agent in assetDetails` loop (source lines 190-242): skip archived and
paused assets, run the asset checks, extend the flat `errors` list and record a
per-asset entry, in asset order. -/
def agentLoop (now : Int) : List Agent → List Finding × List AssetReport
  | [] => ([], [])
  | agent :: rest =>
    if agent.isArchived then agentLoop now rest
    else if agent.isPaused then agentLoop now rest
    else
      let fs := assetChecks now agent
      let r := agentLoop now rest
      (fs ++ r.1, ⟨agent.name, fs⟩ :: r.2)

/-! ## Device evaluation (source lines 144-243) -/

/-- What one main-loop iteration records for a visible device: the flat `errors`
list, the device-level `results_data[...]['errors']`, and the per-asset reports. -/
structure DeviceReport where
  errors : List Finding
  deviceErrors : List Finding
  assets : List AssetReport
  deriving DecidableEq

/-- The active-ticket check (source lines 156-163): `if device['activeTickets']`
is integer truthiness. -/
def ticketErrorsOf (device : Device) : List Finding :=
  if device.activeTickets ≠ 0 then [.activeTickets device.activeTickets] else []

/-- The local-storage check (source lines 171-181): `total_space` is
`storage_available + storage_used`, and the finding fires when `available_pct`
exceeds `STORAGE_PCT_THRESHOLD`. -/
def storageErrorsOf (device : Device) : List Finding :=
  let pct := availablePct device.localStorageUsed
    (device.localStorageAvailable + device.localStorageUsed)
  if STORAGE_PCT_THRESHOLD < pct then [.storage pct] else []

/-- One iteration of the main loop for a visible device (source lines 144-243).
Returns `none` when `total_space == 0`, where the unguarded
`storage_used / total_space` raises an uncaught `ZeroDivisionError`.
When the check-in is stale the iteration `continue`s before the storage check and
before `getAssetDetails` is ever called, so the result does not depend on the assets. -/
def deviceCheck (now : Int) (device : Device) (agents : List Agent) :
    Option DeviceReport :=
  let ticketErrors := ticketErrorsOf device
  let timeDiff := now - device.lastSeen
  if CHECKIN_LIMIT ≤ timeDiff then
    some ⟨ticketErrors ++ [.lateCheckin timeDiff], ticketErrors ++ [.lateCheckin timeDiff], []⟩
  else if device.localStorageAvailable + device.localStorageUsed = 0 then none
  else
    let storageErrors := storageErrorsOf device
    let looped := agentLoop now agents
    some ⟨ticketErrors ++ storageErrors ++ looped.1, ticketErrors ++ storageErrors, looped.2⟩

/-! ## Report buffer and whole run (source lines 80-86, 137-250) -/

/-- `printErrors(errors, device_name)` (source lines 80-86): append the device
header, each error line, and a separator to `MSG_BODY`. -/
def printErrors (errors : List Finding) (deviceName : String)
    (msgBody : List String) : List String :=
  msgBody ++ ["--DEVICE: " ++ deviceName] ++ errors.map render ++ ["\n"]

/-- One main-loop iteration's effect on `MSG_BODY` (source lines 137-243):
skip hidden devices; propagate a crash; print when the device produced errors
(the stale-check-in branch prints inside itself, and its list is never empty,
so the single `if errors` test is equivalent). -/
def mainLoopStep (now : Int) (msgBody : Option (List String))
    (dev : Device × List Agent) : Option (List String) :=
  match msgBody with
  | none => none
  | some body =>
    if dev.1.hidden then some body
    else
      match deviceCheck now dev.1 dev.2 with
      | none => none
      | some report =>
        if report.errors = [] then some body
        else some (printErrors report.errors dev.1.name body)

/-- The end state of one run: the flat `MSG_BODY` buffer and whether
`email_report()` was invoked. -/
structure RunResult where
  msgBody : List String
  emailSent : Bool
  deriving DecidableEq

/-- The whole run over a device list (source lines 137-250): fold the main loop
over the devices, then `if SEND_EMAIL: email_report()` — the send is gated only on
the flag, not on the buffer.  `none` models a crash (uncaught `ZeroDivisionError`). -/
def mainLoop (now : Int) (devices : List (Device × List Agent)) (sendEmail : Bool) :
    Option RunResult :=
  (devices.foldl (mainLoopStep now) (some [])).map (fun body => ⟨body, sendEmail⟩)

/-! ## `Datto.getDevices` (source lines 50-69) -/

/-- The `pagination` object of a device-list response; the script reads `totalPages`. -/
structure Pagetail where
  totalPages : Nat
  deriving DecidableEq

/-- One page of the device-list endpoint: its `items` and its `pagination`. -/
structure DevicesPage where
  items : List Device
  pagination : Pagetail
  deriving DecidableEq

/-- The sort key of source line 68: `lambda i: i['name'].upper()`. -/
def sortKey (d : Device) : String := d.name.toUpper

/-- `Datto.getDevices` (source lines 50-69): fetch page 1, read `totalPages` from it,
extend with the `items` of pages `2 .. totalPages`, and sort by upper-cased name.
The server is modelled as a function from page number to response page. -/
def getDevices (pageAt : Nat → DevicesPage) : List Device :=
  let r := pageAt 1
  let devices := r.items
  let totalPages := r.pagination.totalPages
  let devices := devices ++ ((List.range' 2 (totalPages - 1)).map (fun p => (pageAt p).items)).flatten
  devices.mergeSort (fun a b => decide (sortKey a ≤ sortKey b))

/-! ## Specification-side definitions (from the spec's words, for comparison) -/

/-- The spec's unit decomposition of a number of seconds: the magnitudes of weeks,
days, hours, minutes and seconds in the canonical mixed-radix representation,
largest unit first, with singular unit names. -/
def specUnitList (s : Nat) : List (Nat × String) :=
  [(s / 604800, "week"), (s % 604800 / 86400, "day"), (s % 86400 / 3600, "hour"),
   (s % 3600 / 60, "minute"), (s % 60, "second")]

/-- Render one unit the way the spec describes: the magnitude, a space, the unit
name, pluralized unless the magnitude is exactly 1. -/
def specRenderUnit (p : Nat × String) : String :=
  toString p.1 ++ " " ++ p.2 ++ (if p.1 = 1 then "" else "s")

/-- The spec's elapsed-time format: the two largest non-zero units, rendered and
joined with a comma. -/
def specTwoLargest (s : Nat) : String :=
  String.intercalate ", " ((((specUnitList s).filter (fun p => p.1 != 0)).map specRenderUnit).take 2)

/-- Claim C1's reading of source line 175: the percentage
`used / (used + available) × 100`, rounded to two decimal places.  For integer
inputs this equals `round(10000 * used / (used + available)) / 100`. -/
def specStoragePct (used avail : Int) : ℚ :=
  (roundHalfDiv (10000 * used) (used + avail) : ℚ) / 100

/-! ## Concrete example inputs -/

/-- A visible, online device at 95.3% local storage usage. -/
def cex1Device : Device :=
  { name := "cex1", serialNumber := "sn1", hidden := false, lastSeen := 0,
    activeTickets := 0, localStorageAvailable := 47, localStorageUsed := 953 }

/-- A visible, online device at 96% local storage usage (used=96, available=4). -/
def highStorageDevice : Device :=
  { name := "high", serialNumber := "sn2", hidden := false, lastSeen := 0,
    activeTickets := 0, localStorageAvailable := 4, localStorageUsed := 96 }

/-- A visible, online device at 94% local storage usage (used=94, available=6). -/
def okStorageDevice : Device :=
  { name := "ok", serialNumber := "sn3", hidden := false, lastSeen := 0,
    activeTickets := 0, localStorageAvailable := 6, localStorageUsed := 94 }

/-- A visible, online device at exactly 95.5% local storage usage
(used=191, available=9, ratio exactly 0.955 — the representable decimal tie). -/
def tieStorageDevice : Device :=
  { name := "tie", serialNumber := "sn8", hidden := false, lastSeen := 0,
    activeTickets := 0, localStorageAvailable := 9, localStorageUsed := 191 }

/-- A visible, online device with zero used and zero available local storage. -/
def zeroStorageDevice : Device :=
  { name := "zero", serialNumber := "sn4", hidden := false, lastSeen := 100,
    activeTickets := 0, localStorageAvailable := 0, localStorageUsed := 0 }

/-- A hidden device. -/
def hiddenDevice : Device :=
  { name := "hid", serialNumber := "sn5", hidden := true, lastSeen := 0,
    activeTickets := 5, localStorageAvailable := 0, localStorageUsed := 0 }

/-- A visible, online device that triggers no findings. -/
def cleanDevice : Device :=
  { name := "clean", serialNumber := "sn6", hidden := false, lastSeen := 1000,
    activeTickets := 0, localStorageAvailable := 100, localStorageUsed := 0 }

/-- An agent-type asset whose last screenshot attempt happened at epoch 0: the
timestamp exists but is falsy in Python. -/
def cexScreenshotAgent : Agent :=
  { name := "shot", isArchived := false, isPaused := false, lastSnapshot := 1000000,
    backups := [⟨"success", ""⟩], latestOffsite := some 999000, type := "agent",
    lastScreenshotAttempt := some 0, lastScreenshotAttemptStatus := some true }

/-- A healthy agent-type asset (relative to `now = 1000`). -/
def cleanAgent : Agent :=
  { name := "ok-agent", isArchived := false, isPaused := false, lastSnapshot := 1000,
    backups := [⟨"success", ""⟩], latestOffsite := some 1000, type := "agent",
    lastScreenshotAttempt := some 1000, lastScreenshotAttemptStatus := some true }

/-- A non-archived, non-paused asset with an empty backup history and a stale
last snapshot (relative to `now = 1000000`). -/
def noBackupsAgent : Agent :=
  { name := "nb", isArchived := false, isPaused := false, lastSnapshot := 0,
    backups := [], latestOffsite := some 999000, type := "agent",
    lastScreenshotAttempt := some 999000, lastScreenshotAttemptStatus := some true }

/-- A non-archived, non-paused asset whose `latestOffsite` is `null`. -/
def nullOffsiteAgent : Agent :=
  { name := "off", isArchived := false, isPaused := false, lastSnapshot := 1000,
    backups := [⟨"success", ""⟩], latestOffsite := none, type := "agent",
    lastScreenshotAttempt := some 1000, lastScreenshotAttemptStatus := some true }

/-- A non-archived, non-paused asset whose `latestOffsite` is the epoch timestamp 0. -/
def zeroOffsiteAgent : Agent :=
  { name := "zoff", isArchived := false, isPaused := false, lastSnapshot := 1000,
    backups := [⟨"success", ""⟩], latestOffsite := some 0, type := "agent",
    lastScreenshotAttempt := some 1000, lastScreenshotAttemptStatus := some true }

/-- An agent-type asset with a stale (non-zero) screenshot attempt and an explicitly
failed screenshot status (relative to `now = 1000000`). -/
def staleScreenshotAgent : Agent :=
  { name := "stale", isArchived := false, isPaused := false, lastSnapshot := 1000000,
    backups := [⟨"success", ""⟩], latestOffsite := some 999000, type := "agent",
    lastScreenshotAttempt := some 1, lastScreenshotAttemptStatus := some false }

/-- A single-page device-list server holding `cleanDevice` and `cex1Device`. -/
def onePageServer : Nat → DevicesPage :=
  fun _ => ⟨[cleanDevice, cex1Device], ⟨1⟩⟩

/-! ## Helper lemmas about `display_time` -/

theorem dtLoop_cons (s : Nat) (name : String) (c : Nat) (rest : List (String × Nat)) :
    dtLoop s ((name, c) :: rest) =
      (if s / c = 0 then []
       else [toString (s / c) ++ " " ++ (if s / c = 1 then rstripS name else name)])
        ++ dtLoop (s % c) rest := by
  have h1 := Nat.div_add_mod s c
  by_cases h : s / c = 0
  · have hm : s % c = s := by rw [h] at h1; simpa using h1
    simp [dtLoop, h, hm]
  · have h1' : s / c * c + s % c = s := by rw [Nat.mul_comm] at h1; exact h1
    have hm : s - s / c * c = s % c :=
      Nat.sub_eq_of_eq_add (by rw [Nat.add_comm]; exact h1'.symm)
    simp [dtLoop, h, hm]

theorem renderBlock_eq (v : Nat) (sing plur : String)
    (hp : plur = sing ++ "s") (hr : rstripS plur = sing) :
    (if v = 0 then []
     else [toString v ++ " " ++ (if v = 1 then rstripS plur else plur)])
      = ([(v, sing)].filter (fun p => p.1 != 0)).map specRenderUnit := by
  by_cases h0 : v = 0
  · simp [h0]
  · by_cases h1 : v = 1
    · simp [specRenderUnit, h0, h1, hr]
    · simp [specRenderUnit, h0, h1, hp, String.append_assoc]

theorem dtLoop_intervals (s : Nat) :
    dtLoop s intervals
      = ((specUnitList s).filter (fun p => p.1 != 0)).map specRenderUnit := by
  have hd1 : s % 604800 % 86400 = s % 86400 := Nat.mod_mod_of_dvd s (by norm_num)
  have hd2 : s % 86400 % 3600 = s % 3600 := Nat.mod_mod_of_dvd s (by norm_num)
  have hd3 : s % 3600 % 60 = s % 60 := Nat.mod_mod_of_dvd s (by norm_num)
  show dtLoop s [("weeks", 604800), ("days", 86400), ("hours", 3600), ("minutes", 60),
      ("seconds", 1)] = _
  rw [dtLoop_cons, dtLoop_cons, hd1, dtLoop_cons, hd2, dtLoop_cons, hd3, dtLoop_cons]
  simp only [Nat.div_one]
  rw [renderBlock_eq (s / 604800) "week" "weeks" rfl rfl,
    renderBlock_eq (s % 604800 / 86400) "day" "days" rfl rfl,
    renderBlock_eq (s % 86400 / 3600) "hour" "hours" rfl rfl,
    renderBlock_eq (s % 3600 / 60) "minute" "minutes" rfl rfl,
    renderBlock_eq (s % 60) "second" "seconds" rfl rfl]
  show _ ++ (_ ++ (_ ++ (_ ++ (_ ++ dtLoop (s % 60 % 1) [])))) = _
  simp only [dtLoop, List.append_nil, specUnitList, List.filter_cons, List.filter_nil,
    List.map_cons, List.map_nil]
  split_ifs <;> simp_all

/-- Claim C4: for every non-negative number of seconds, `display_time` at
granularity 2 renders the two largest non-zero units among weeks, days, hours,
minutes, seconds, singularizing a unit of magnitude exactly 1; in particular
`display_time 90061 2 = "1 day, 1 hour"`. -/
theorem display_time_two_largest :
    (∀ s : Nat, display_time s 2 = specTwoLargest s) ∧
    display_time 90061 2 = "1 day, 1 hour" := by
  constructor
  · intro s
    unfold display_time specTwoLargest
    rw [dtLoop_intervals]
  · decide

/-! ## Shape lemmas about the asset checks -/

theorem mem_backupCheck {now : Int} {a : Agent} {f : Finding}
    (h : f ∈ backupCheck now a) :
    (∃ e em, f = Finding.backupFailed a.name e em) ∨ f = Finding.noBackups a.name := by
  simp only [backupCheck] at h
  split at h
  · split at h
    · right; simpa using h
    · split at h
      · left; exact ⟨_, _, by simpa using h⟩
      · simp at h
  · simp at h

theorem mem_offsiteCheck {now : Int} {a : Agent} {f : Finding}
    (h : f ∈ offsiteCheck now a) :
    f = Finding.noOffsite a.name ∨ ∃ e, f = Finding.lateOffsite a.name e := by
  simp only [offsiteCheck] at h
  split at h
  · left; simpa using h
  · split at h
    · left; simpa using h
    · split at h
      · right; exact ⟨_, by simpa using h⟩
      · simp at h

theorem mem_screenshotTimeCheck {now : Int} {a : Agent} {f : Finding}
    (h : f ∈ screenshotTimeCheck now a) :
    ∃ e, f = Finding.lateScreenshot a.name e := by
  simp only [screenshotTimeCheck] at h
  split at h
  · simp at h
  · split at h
    · exact ⟨_, by simpa using h⟩
    · simp at h

theorem mem_screenshotStatusCheck {a : Agent} {f : Finding}
    (h : f ∈ screenshotStatusCheck a) : f = Finding.screenshotFailed a.name := by
  simp only [screenshotStatusCheck] at h
  split at h
  · simpa using h
  · simp at h

theorem mem_assetChecks {now : Int} {a : Agent} {f : Finding}
    (h : f ∈ assetChecks now a) :
    f ∈ backupCheck now a ∨ f ∈ offsiteCheck now a
      ∨ f ∈ screenshotTimeCheck now a ∨ f ∈ screenshotStatusCheck a := by
  simp only [assetChecks, List.mem_append] at h
  tauto

theorem agentLoop_single (now : Int) (a : Agent) :
    (agentLoop now [a]).1
      = if a.isArchived then [] else if a.isPaused then [] else assetChecks now a := by
  by_cases h1 : a.isArchived <;> by_cases h2 : a.isPaused <;> simp [agentLoop, h1, h2]

theorem mem_agentLoop {now : Int} {agents : List Agent} {f : Finding}
    (h : f ∈ (agentLoop now agents).1) :
    ∃ a, a ∈ agents ∧ f ∈ assetChecks now a := by
  induction agents with
  | nil => simp [agentLoop] at h
  | cons a rest ih =>
    by_cases h1 : a.isArchived
    · rw [show (agentLoop now (a :: rest)).1 = (agentLoop now rest).1 by
        simp [agentLoop, h1]] at h
      obtain ⟨b, hb, hf⟩ := ih h
      exact ⟨b, by simp [hb], hf⟩
    · by_cases h2 : a.isPaused
      · rw [show (agentLoop now (a :: rest)).1 = (agentLoop now rest).1 by
          simp [agentLoop, h1, h2]] at h
        obtain ⟨b, hb, hf⟩ := ih h
        exact ⟨b, by simp [hb], hf⟩
      · rw [show (agentLoop now (a :: rest)).1
            = assetChecks now a ++ (agentLoop now rest).1 by
          simp [agentLoop, h1, h2]] at h
        rcases List.mem_append.1 h with h | h
        · exact ⟨a, by simp, h⟩
        · obtain ⟨b, hb, hf⟩ := ih h
          exact ⟨b, by simp [hb], hf⟩

theorem isStorage_false_of_mem_assetChecks {now : Int} {a : Agent} {f : Finding}
    (h : f ∈ assetChecks now a) : Finding.isStorage f = false := by
  rcases mem_assetChecks h with h | h | h | h
  · rcases mem_backupCheck h with ⟨e, em, rfl⟩ | rfl <;> rfl
  · rcases mem_offsiteCheck h with rfl | ⟨e, rfl⟩ <;> rfl
  · obtain ⟨e, rfl⟩ := mem_screenshotTimeCheck h; rfl
  · rw [mem_screenshotStatusCheck h]; rfl

theorem countP_isStorage_agentLoop (now : Int) (agents : List Agent) :
    (agentLoop now agents).1.countP Finding.isStorage = 0 := by
  rw [List.countP_eq_zero]
  intro f hf
  obtain ⟨a, _, hm⟩ := mem_agentLoop hf
  simp [isStorage_false_of_mem_assetChecks hm]

/-! ## Helper lemmas about the device evaluation -/

theorem deviceCheck_of_checkin (now : Int) (device : Device) (agents : List Agent)
    (h : CHECKIN_LIMIT ≤ now - device.lastSeen) :
    deviceCheck now device agents =
      some ⟨ticketErrorsOf device ++ [Finding.lateCheckin (now - device.lastSeen)],
            ticketErrorsOf device ++ [Finding.lateCheckin (now - device.lastSeen)], []⟩ := by
  simp [deviceCheck, h]

theorem deviceCheck_of_online (now : Int) (device : Device) (agents : List Agent)
    (hon : now - device.lastSeen < CHECKIN_LIMIT)
    (hnz : device.localStorageAvailable + device.localStorageUsed ≠ 0) :
    deviceCheck now device agents =
      some ⟨ticketErrorsOf device ++ storageErrorsOf device ++ (agentLoop now agents).1,
            ticketErrorsOf device ++ storageErrorsOf device, (agentLoop now agents).2⟩ := by
  have h1 : ¬ CHECKIN_LIMIT ≤ now - device.lastSeen := not_le.mpr hon
  simp [deviceCheck, h1, hnz]

/-- Claim C3: for a visible device whose check-in is at least `CHECKIN_LIMIT`
seconds old, exactly one critical check-in finding is produced, no asset-level
findings are recorded, and the result does not depend on the asset list at all
(no asset is ever fetched). -/
theorem checkin_short_circuit (now : Int) (device : Device)
    (agents agents2 : List Agent)
    (_hvis : device.hidden = false) (h : CHECKIN_LIMIT ≤ now - device.lastSeen) :
    ∃ r, deviceCheck now device agents = some r ∧
      r.errors.countP Finding.isLateCheckin = 1 ∧
      r.assets = [] ∧
      deviceCheck now device agents2 = some r := by
  refine ⟨_, deviceCheck_of_checkin now device agents h, ?_, rfl,
    deviceCheck_of_checkin now device agents2 h⟩
  rw [List.countP_append]
  have ht : (ticketErrorsOf device).countP Finding.isLateCheckin = 0 := by
    unfold ticketErrorsOf
    split <;> simp [Finding.isLateCheckin]
  rw [ht]
  simp [Finding.isLateCheckin]

theorem checkin_short_circuit_witness :
    ∃ r, deviceCheck 100000 cleanDevice [] = some r ∧
      r.errors.countP Finding.isLateCheckin = 1 ∧
      r.assets = [] ∧
      deviceCheck 100000 cleanDevice [cleanAgent] = some r :=
  checkin_short_circuit 100000 cleanDevice [] [cleanAgent] rfl (by decide)

/-- Claim C9: the storage check divides by `used + available` with no guard: a
visible, online device with both sizes 0 crashes the evaluation
(`ZeroDivisionError`, modelled as `none`), and evaluation of an online device is
total whenever `used + available > 0`. -/
theorem storage_division_unguarded :
    deviceCheck 100 zeroStorageDevice [] = none ∧
    (∀ (now : Int) (device : Device) (agents : List Agent),
      now - device.lastSeen < CHECKIN_LIMIT →
      0 < device.localStorageUsed + device.localStorageAvailable →
      (deviceCheck now device agents).isSome = true) := by
  refine ⟨by decide, ?_⟩
  intro now device agents hon hpos
  have h1 : ¬ CHECKIN_LIMIT ≤ now - device.lastSeen := not_le.mpr hon
  have h2 : device.localStorageAvailable + device.localStorageUsed ≠ 0 := by omega
  simp [deviceCheck, h1, h2]

theorem storage_division_unguarded_witness :
    (deviceCheck 1000 cleanDevice []).isSome = true :=
  storage_division_unguarded.2 1000 cleanDevice [] (by decide) (by decide)

/-- Claim C5: a non-archived, non-paused asset with an empty backup history and a
stale last snapshot yields the "does not seem to have any backups" finding — and
never a status-failure finding.  The missing-data condition is folded into the
(total) report computation; no exception escapes. -/
theorem no_backups_finding (now : Int) (a : Agent)
    (h1 : a.isArchived = false) (h2 : a.isPaused = false)
    (h3 : a.backups = []) (h4 : LAST_BACKUP_THRESHOLD < now - a.lastSnapshot) :
    Finding.noBackups a.name ∈ (agentLoop now [a]).1 ∧
    ∀ (e : Int) (em : String),
      Finding.backupFailed a.name e em ∉ (agentLoop now [a]).1 := by
  have hl : (agentLoop now [a]).1 = assetChecks now a := by
    rw [agentLoop_single]; simp [h1, h2]
  have hb : backupCheck now a = [Finding.noBackups a.name] := by
    simp [backupCheck, h3, h4]
  constructor
  · rw [hl]
    unfold assetChecks
    rw [hb]
    simp
  · intro e em hmem
    rw [hl] at hmem
    rcases mem_assetChecks hmem with h | h | h | h
    · rw [hb] at h; simp at h
    · rcases mem_offsiteCheck h with h | ⟨e2, h⟩ <;> simp at h
    · obtain ⟨e2, h⟩ := mem_screenshotTimeCheck h; simp at h
    · have := mem_screenshotStatusCheck h; simp at this

theorem no_backups_finding_witness :
    Finding.noBackups noBackupsAgent.name ∈ (agentLoop 1000000 [noBackupsAgent]).1 ∧
    ∀ (e : Int) (em : String),
      Finding.backupFailed noBackupsAgent.name e em ∉ (agentLoop 1000000 [noBackupsAgent]).1 :=
  no_backups_finding 1000000 noBackupsAgent rfl rfl rfl (by decide)

/-- Claim C7: a non-archived, non-paused asset whose `latestOffsite` is `null`
always yields the missing-off-site finding, whatever `now` and the other fields. -/
theorem null_offsite_finding (now : Int) (a : Agent)
    (h1 : a.isArchived = false) (h2 : a.isPaused = false)
    (h3 : a.latestOffsite = none) :
    Finding.noOffsite a.name ∈ (agentLoop now [a]).1 := by
  have hl : (agentLoop now [a]).1 = assetChecks now a := by
    rw [agentLoop_single]; simp [h1, h2]
  have ho : offsiteCheck now a = [Finding.noOffsite a.name] := by
    simp [offsiteCheck, h3]
  rw [hl]
  unfold assetChecks
  rw [ho]
  simp

theorem null_offsite_finding_witness :
    Finding.noOffsite nullOffsiteAgent.name ∈ (agentLoop 1000 [nullOffsiteAgent]).1 :=
  null_offsite_finding 1000 nullOffsiteAgent rfl rfl rfl

/-- Claim C10: the off-site test is a falsiness test: `latestOffsite = 0` (the
epoch timestamp — a value that exists) yields the "no off-site backup points"
finding, and no elapsed-time off-site finding is ever produced for that asset. -/
theorem zero_offsite_falsy (now : Int) (a : Agent)
    (h1 : a.isArchived = false) (h2 : a.isPaused = false)
    (h3 : a.latestOffsite = some 0) :
    Finding.noOffsite a.name ∈ (agentLoop now [a]).1 ∧
    ∀ (n : String) (e : Int), Finding.lateOffsite n e ∉ (agentLoop now [a]).1 := by
  have hl : (agentLoop now [a]).1 = assetChecks now a := by
    rw [agentLoop_single]; simp [h1, h2]
  have ho : offsiteCheck now a = [Finding.noOffsite a.name] := by
    simp [offsiteCheck, h3]
  constructor
  · rw [hl]
    unfold assetChecks
    rw [ho]
    simp
  · intro n e hmem
    rw [hl] at hmem
    rcases mem_assetChecks hmem with h | h | h | h
    · rcases mem_backupCheck h with ⟨e2, em2, h⟩ | h <;> simp at h
    · rw [ho] at h; simp at h
    · obtain ⟨e2, h⟩ := mem_screenshotTimeCheck h; simp at h
    · have := mem_screenshotStatusCheck h; simp at this

theorem zero_offsite_falsy_witness :
    Finding.noOffsite zeroOffsiteAgent.name ∈ (agentLoop 1000 [zeroOffsiteAgent]).1 ∧
    ∀ (n : String) (e : Int),
      Finding.lateOffsite n e ∉ (agentLoop 1000 [zeroOffsiteAgent]).1 :=
  zero_offsite_falsy 1000 zeroOffsiteAgent rfl rfl rfl

/-- Counterexample to claim C8 as stated: for `cexScreenshotAgent` the
last-screenshot-attempt timestamp exists (`some 0`) and the elapsed time exceeds
48 hours, yet no stale-screenshot finding is produced — Python's truthiness test
skips the check for the falsy timestamp 0. -/
theorem screenshot_exists_cex :
    cexScreenshotAgent.type = "agent" ∧ cexScreenshotAgent.isArchived = false ∧
    cexScreenshotAgent.isPaused = false ∧
    cexScreenshotAgent.lastScreenshotAttempt = some 0 ∧
    LAST_SCREENSHOT_THRESHOLD < (1000000 : Int) - 0 ∧
    (agentLoop 1000000 [cexScreenshotAgent]).1.countP Finding.isLateScreenshot = 0 := by
  decide

/-- Claim C8, amended: for agent-type assets, a stale-screenshot finding is
produced when the last-screenshot-attempt timestamp exists, is non-zero (truthy),
and is older than 48 hours; independently, an explicitly failed status produces a
failed-screenshot finding; neither finding is ever produced for a non-agent-type
asset. -/
theorem screenshot_checks_amended :
    (∀ (now t : Int) (a : Agent),
      a.isArchived = false → a.isPaused = false → a.type = "agent" →
      a.lastScreenshotAttempt = some t → t ≠ 0 →
      LAST_SCREENSHOT_THRESHOLD < now - t →
      Finding.lateScreenshot a.name (now - t) ∈ (agentLoop now [a]).1) ∧
    (∀ (now : Int) (a : Agent),
      a.isArchived = false → a.isPaused = false → a.type = "agent" →
      a.lastScreenshotAttemptStatus = some false →
      Finding.screenshotFailed a.name ∈ (agentLoop now [a]).1) ∧
    (∀ (now : Int) (a : Agent), a.type ≠ "agent" →
      (∀ (n : String) (e : Int), Finding.lateScreenshot n e ∉ (agentLoop now [a]).1) ∧
      (∀ n : String, Finding.screenshotFailed n ∉ (agentLoop now [a]).1)) := by
  refine ⟨?_, ?_, ?_⟩
  · intro now t a h1 h2 ht hs hnz hth
    have hl : (agentLoop now [a]).1 = assetChecks now a := by
      rw [agentLoop_single]; simp [h1, h2]
    have hc : screenshotTimeCheck now a = [Finding.lateScreenshot a.name (now - t)] := by
      simp [screenshotTimeCheck, hs, ht, hnz, hth]
    rw [hl]
    unfold assetChecks
    rw [hc]
    simp
  · intro now a h1 h2 ht hs
    have hl : (agentLoop now [a]).1 = assetChecks now a := by
      rw [agentLoop_single]; simp [h1, h2]
    have hc : screenshotStatusCheck a = [Finding.screenshotFailed a.name] := by
      simp [screenshotStatusCheck, ht, hs]
    rw [hl]
    unfold assetChecks
    rw [hc]
    simp
  · intro now a ht
    have hts : screenshotTimeCheck now a = [] := by
      cases hA : a.lastScreenshotAttempt <;> simp [screenshotTimeCheck, hA, ht]
    have hss : screenshotStatusCheck a = [] := by
      simp [screenshotStatusCheck, ht]
    have hne : ∀ f, f ∈ (agentLoop now [a]).1 → f ∈ assetChecks now a := by
      intro f hf
      rw [agentLoop_single] at hf
      split_ifs at hf <;> simp_all
    constructor
    · intro n e hmem
      rcases mem_assetChecks (hne _ hmem) with h | h | h | h
      · rcases mem_backupCheck h with ⟨e2, em2, h⟩ | h <;> simp at h
      · rcases mem_offsiteCheck h with h | ⟨e2, h⟩ <;> simp at h
      · rw [hts] at h; simp at h
      · rw [hss] at h; simp at h
    · intro n hmem
      rcases mem_assetChecks (hne _ hmem) with h | h | h | h
      · rcases mem_backupCheck h with ⟨e2, em2, h⟩ | h <;> simp at h
      · rcases mem_offsiteCheck h with h | ⟨e2, h⟩ <;> simp at h
      · rw [hts] at h; simp at h
      · rw [hss] at h; simp at h

theorem screenshot_checks_amended_witness :
    Finding.lateScreenshot staleScreenshotAgent.name ((1000000 : Int) - 1)
      ∈ (agentLoop 1000000 [staleScreenshotAgent]).1 :=
  screenshot_checks_amended.1 1000000 1 staleScreenshotAgent rfl rfl rfl rfl
    (by decide) (by decide)

/-- The storage finding's condition, reduced to linear arithmetic: rounding the
usage ratio to two decimals (ties down) and scaling by 100 exceeds 95 exactly when
`191 * total < 200 * used`, i.e. the usage ratio is strictly above 95.5%. -/
theorem availablePct_gt_iff (used total : Int) (hpos : 0 < total) :
    STORAGE_PCT_THRESHOLD < availablePct used total ↔ 191 * total < 200 * used := by
  unfold STORAGE_PCT_THRESHOLD availablePct roundHalfDownDiv
  have hiff : (-95 : Int) ≤ (total - 2 * (100 * used)) / (2 * total)
      ↔ (-95 : Int) * (2 * total) ≤ total - 2 * (100 * used) :=
    Int.le_ediv_iff_mul_le (by linarith : (0 : Int) < 2 * total)
  constructor
  · intro h
    by_contra hc
    push_neg at hc
    have hle := hiff.2 (by linarith)
    linarith
  · intro h
    by_contra hc
    push_neg at hc
    have hd : (-95 : Int) ≤ (total - 2 * (100 * used)) / (2 * total) := by linarith
    have hle := hiff.1 hd
    linarith

/-- Counterexample to claim C1 as stated: for used = 953, available = 47 the
percentage rounded to two decimals is 95.30 > 95, yet the device evaluation
produces no storage finding (the code rounds the *ratio* to two decimals before
scaling, so 0.953 becomes 0.95 and 95.0 is not greater than 95). -/
theorem storage_threshold_cex :
    (95 : ℚ) < specStoragePct 953 47 ∧
    deviceCheck 0 cex1Device [] = some ⟨[], [], []⟩ := by
  constructor
  · have h : roundHalfDiv (10000 * 953) (953 + 47) = 9530 := by decide
    unfold specStoragePct
    rw [h]
    norm_num
  · decide

/-- Claim C1, amended: for a visible, online device with non-negative sizes and
positive total, the storage finding fires iff the code's value — the ratio rounded
to two decimals, times 100 — exceeds 95, which happens iff
`191 * (used + available) < 200 * used` (usage ratio strictly above 95.5%).  The
claim's two examples still hold: used=96/available=4 fires, used=94/available=6
does not; and at the exact tie used=191/available=9 (95.5%) no finding fires,
matching CPython's formatting of the nearest double 0.95499999999999996 to
"0.95". -/
theorem storage_threshold_amended :
    (∀ (now : Int) (device : Device) (agents : List Agent),
      device.hidden = false →
      now - device.lastSeen < CHECKIN_LIMIT →
      0 ≤ device.localStorageUsed → 0 ≤ device.localStorageAvailable →
      0 < device.localStorageUsed + device.localStorageAvailable →
      ∃ r, deviceCheck now device agents = some r ∧
        (r.errors.countP Finding.isStorage ≠ 0 ↔
          191 * (device.localStorageUsed + device.localStorageAvailable)
            < 200 * device.localStorageUsed)) ∧
    (∃ r, deviceCheck 0 highStorageDevice [] = some r ∧
      r.errors.countP Finding.isStorage = 1) ∧
    (∃ r, deviceCheck 0 okStorageDevice [] = some r ∧
      r.errors.countP Finding.isStorage = 0) ∧
    (∃ r, deviceCheck 0 tieStorageDevice [] = some r ∧
      r.errors.countP Finding.isStorage = 0) := by
  refine ⟨?_, ⟨⟨[Finding.storage 96], [Finding.storage 96], []⟩, by decide, by decide⟩,
    ⟨⟨[], [], []⟩, by decide, by decide⟩, ⟨⟨[], [], []⟩, by decide, by decide⟩⟩
  intro now device agents hvis hon hu ha hpos
  have hnz : device.localStorageAvailable + device.localStorageUsed ≠ 0 := by omega
  refine ⟨_, deviceCheck_of_online now device agents hon hnz, ?_⟩
  rw [List.countP_append, List.countP_append]
  have ht : (ticketErrorsOf device).countP Finding.isStorage = 0 := by
    unfold ticketErrorsOf
    split <;> simp [Finding.isStorage]
  rw [ht, countP_isStorage_agentLoop]
  have key := availablePct_gt_iff device.localStorageUsed
    (device.localStorageAvailable + device.localStorageUsed) (by omega)
  simp only [storageErrorsOf]
  split_ifs with hs
  · have hkey := key.1 hs
    simp [Finding.isStorage]
    omega
  · have hkey : ¬ 191 * (device.localStorageAvailable + device.localStorageUsed)
        < 200 * device.localStorageUsed := fun hlt => hs (key.2 hlt)
    simp
    omega

theorem storage_threshold_amended_witness :
    ∃ r, deviceCheck 0 highStorageDevice [cleanAgent] = some r ∧
      (r.errors.countP Finding.isStorage ≠ 0 ↔
        191 * (highStorageDevice.localStorageUsed + highStorageDevice.localStorageAvailable)
          < 200 * highStorageDevice.localStorageUsed) :=
  storage_threshold_amended.1 0 highStorageDevice [cleanAgent] rfl (by decide)
    (by decide) (by decide) (by decide)

/-- Counterexample to claim C2 as stated: one hidden device plus one visible,
finding-free device leaves the report buffer empty — but with the email flag
enabled, the run still sends the (empty) email: the send is gated only on the
flag, never on the buffer. -/
theorem empty_report_email_cex :
    mainLoop 1000 [(hiddenDevice, []), (cleanDevice, [cleanAgent])] true
      = some ⟨[], true⟩ := by
  decide

/-- Claim C2, amended: over a device list of one hidden device and one visible
device whose evaluation yields no findings, the flat report buffer ends the run
empty, and the email is sent exactly when the flag is enabled (regardless of the
empty buffer). -/
theorem empty_report_email_flag (now : Int) (dh dc : Device)
    (ah ac : List Agent) (sendEmail : Bool)
    (h1 : dh.hidden = true) (h2 : dc.hidden = false)
    (h3 : ∃ r, deviceCheck now dc ac = some r ∧ r.errors = []) :
    mainLoop now [(dh, ah), (dc, ac)] sendEmail = some ⟨[], sendEmail⟩ := by
  obtain ⟨r, hr, he⟩ := h3
  simp [mainLoop, mainLoopStep, List.foldl, h1, h2, hr, he]

theorem empty_report_email_flag_witness :
    mainLoop 1000 [(hiddenDevice, []), (cleanDevice, [cleanAgent])] false
      = some ⟨[], false⟩ :=
  empty_report_email_flag 1000 hiddenDevice cleanDevice [] [cleanAgent] false rfl rfl
    ⟨⟨[], [], [⟨"ok-agent", []⟩]⟩, by decide, rfl⟩

/-- Claim C6: `getDevices` returns exactly the items of pages 1 through
`totalPages`, concatenated in page order with nothing dropped or duplicated
(a permutation of that concatenation, since the list is then re-ordered), and
sorted case-insensitively — by upper-cased name — in the result. -/
theorem getDevices_pages_sorted (pageAt : Nat → DevicesPage)
    (hN : 1 ≤ (pageAt 1).pagination.totalPages) :
    (getDevices pageAt).Perm
        (((List.range' 1 (pageAt 1).pagination.totalPages).map
          (fun p => (pageAt p).items)).flatten) ∧
    (getDevices pageAt).Sorted (fun a b => sortKey a ≤ sortKey b) := by
  have hget : getDevices pageAt
      = ((pageAt 1).items
          ++ ((List.range' 2 ((pageAt 1).pagination.totalPages - 1)).map
            (fun p => (pageAt p).items)).flatten).mergeSort
        (fun a b => decide (sortKey a ≤ sortKey b)) := rfl
  constructor
  · have hjoin : ((List.range' 1 (pageAt 1).pagination.totalPages).map
        (fun p => (pageAt p).items)).flatten
        = (pageAt 1).items
          ++ ((List.range' 2 ((pageAt 1).pagination.totalPages - 1)).map
            (fun p => (pageAt p).items)).flatten := by
      obtain ⟨m, hm⟩ : ∃ m, (pageAt 1).pagination.totalPages = m + 1 :=
        ⟨(pageAt 1).pagination.totalPages - 1, by omega⟩
      rw [hm, List.range'_succ]
      simp [hm]
    rw [hget, hjoin]
    exact List.mergeSort_perm _ _
  · have htrans : ∀ a b c : Device,
        decide (sortKey a ≤ sortKey b) = true →
        decide (sortKey b ≤ sortKey c) = true →
        decide (sortKey a ≤ sortKey c) = true := by
      intro a b c hab hbc
      exact decide_eq_true (le_trans (of_decide_eq_true hab) (of_decide_eq_true hbc))
    have htotal : ∀ a b : Device,
        (decide (sortKey a ≤ sortKey b) || decide (sortKey b ≤ sortKey a)) = true := by
      intro a b
      rcases le_total (sortKey a) (sortKey b) with h | h <;> simp [h]
    have hpw := List.sorted_mergeSort htrans htotal
      ((pageAt 1).items
        ++ ((List.range' 2 ((pageAt 1).pagination.totalPages - 1)).map
          (fun p => (pageAt p).items)).flatten)
    rw [hget]
    exact List.Pairwise.imp (fun h => of_decide_eq_true h) hpw

theorem getDevices_pages_sorted_witness :
    (getDevices onePageServer).Perm
        (((List.range' 1 (onePageServer 1).pagination.totalPages).map
          (fun p => (onePageServer p).items)).flatten) ∧
    (getDevices onePageServer).Sorted (fun a b => sortKey a ≤ sortKey b) :=
  getDevices_pages_sorted onePageServer (by decide)

end DattoCheck
